import Mathlib

/-!
Verification development for the foodgram backend (recipe-sharing app).

The definitions below are a shallow embedding of the Python code in
backend/foodgram: the relational rows declared in recipes/models.py and
users/models.py become record types, the database becomes an explicit
record of row lists, and each serializer method from api/serializers.py
becomes a Lean function over that state.  Fallible code returns
Except ApiError; the two distinct failure channels of the Django stack
(rest_framework ValidationError versus the Http404 raised by
django.shortcuts.get_object_or_404) are separate constructors, as is an
uncaught Python ValueError.
-/

namespace Foodgram

/-- A loosely typed payload value, as arrives in `serializer.initial_data`:
either already an integer or a string the code may try to coerce with int(). -/
inductive PyVal where
  | pyInt (n : Int)
  | pyStr (s : String)
  deriving Repr, DecidableEq

/-- Decimal digit value of a character, none for a non-digit. -/
def digitVal? (c : Char) : Option Nat :=
  if c.isDigit then some (c.toNat - 48) else none

/-- Accumulate the value of a run of decimal digits; none on a non-digit. -/
def parseDigitsAux : List Char → Nat → Option Nat
  | [], acc => some acc
  | c :: cs, acc =>
    match digitVal? c with
    | some d => parseDigitsAux cs (acc * 10 + d)
    | none => none

/-- Python int() on a string: an optional sign followed by at least one
decimal digit; anything else raises ValueError, modelled as none
(whitespace trimming and underscore grouping are not modelled). -/
def pyStrToInt : List Char → Option Int
  | [] => none
  | '-' :: cs =>
    match cs with
    | [] => none
    | _ => (parseDigitsAux cs 0).map (fun n => -(n : Int))
  | '+' :: cs =>
    match cs with
    | [] => none
    | _ => (parseDigitsAux cs 0).map (fun n => (n : Int))
  | cs => (parseDigitsAux cs 0).map (fun n => (n : Int))

/-- Python int() coercion on a payload value; none models a ValueError. -/
def pyToInt : PyVal → Option Int
  | .pyInt n => some n
  | .pyStr s => pyStrToInt s.data

/-- Failure channels of the request pipeline: a rest_framework
ValidationError (a 4xx validation failure), the Http404 raised by
get_object_or_404 (a generic not-found), and an uncaught ValueError. -/
inductive ApiError where
  | validationError (msg : String)
  | http404
  | pyValueError
  deriving Repr, DecidableEq

/-- True exactly when a pipeline result failed with a ValidationError. -/
def isValidationFailure {α : Type} : Except ApiError α → Bool
  | .error (.validationError _) => true
  | _ => false

/-! Rows of the data model (recipes/models.py and users/models.py). -/

/-- Tag row: name, color and slug, each globally unique. -/
structure Tag where
  id : Nat
  name : String
  color : String
  slug : String
  deriving Repr, DecidableEq

/-- Ingredient row: (name, measurement_unit) unique together. -/
structure Ingredient where
  id : Nat
  name : String
  measurement_unit : String
  deriving Repr, DecidableEq

/-- User row (users/models.py User). -/
structure UserRow where
  id : Nat
  username : String
  email : String
  deriving Repr, DecidableEq

/-- Recipe row; the tags many-to-many set is kept on the row. -/
structure RecipeRow where
  id : Nat
  author : Nat
  name : String
  text : String
  cooking_time : Int
  tags : List Nat
  deriving Repr, DecidableEq

/-- IngredientInRecipe join row. -/
structure IIRRow where
  recipe : Nat
  ingredient : Nat
  amount : Int
  deriving Repr, DecidableEq

/-- Favorite row: a (user, recipe) bookmark. -/
structure FavoriteRow where
  user : Nat
  recipe : Nat
  deriving Repr, DecidableEq

/-- Cart row: a (user, recipe) shopping-cart entry. -/
structure CartRow where
  user : Nat
  recipe : Nat
  deriving Repr, DecidableEq

/-- Subscription row: user follows author. -/
structure SubscriptionRow where
  user : Nat
  author : Nat
  deriving Repr, DecidableEq

/-- The relational store: one list of rows per model. -/
structure DB where
  tags : List Tag
  ingredients : List Ingredient
  users : List UserRow
  recipes : List RecipeRow
  ingredient_in_recipe : List IIRRow
  favorites : List FavoriteRow
  carts : List CartRow
  subscriptions : List SubscriptionRow
  deriving Repr, DecidableEq

/-! Model-level validators on Recipe.cooking_time (recipes/models.py). -/

/-- django MinValueValidator: passes iff limit_value is not exceeded from below. -/
def min_value_validator (limit_value value : Int) : Bool :=
  limit_value ≤ value

/-- django MaxValueValidator: passes iff value does not exceed limit_value. -/
def max_value_validator (limit_value value : Int) : Bool :=
  value ≤ limit_value

/-- The validator list declared on Recipe.cooking_time:
MinValueValidator(1) and MaxValueValidator(2880). -/
def recipe_cooking_time_valid (value : Int) : Bool :=
  min_value_validator 1 value && max_value_validator 2880 value

/-! Lookup helpers (django.shortcuts.get_object_or_404 raises Http404). -/

/-- get_object_or_404(Tag, pk=pk). -/
def get_object_or_404_tag (db : DB) (pk : Nat) : Except ApiError Tag :=
  match db.tags.find? (fun t => t.id == pk) with
  | some t => .ok t
  | none => .error .http404

/-- get_object_or_404(Ingredient, pk=pk). -/
def get_object_or_404_ingredient (db : DB) (pk : Nat) : Except ApiError Ingredient :=
  match db.ingredients.find? (fun i => i.id == pk) with
  | some i => .ok i
  | none => .error .http404

/-- True iff the tag id resolves to an existing Tag row. -/
def tagResolves (db : DB) (pk : Nat) : Bool :=
  (db.tags.find? (fun t => t.id == pk)).isSome

/-- True iff the ingredient id resolves to an existing Ingredient row. -/
def ingredientResolves (db : DB) (pk : Nat) : Bool :=
  (db.ingredients.find? (fun i => i.id == pk)).isSome

/-! RecipeSerializer validation (api/serializers.py). -/

/-- The for-loop body of RecipeSerializer.validate_tags: each id goes through
get_object_or_404(Tag, pk=tag). -/
def resolve_tags (db : DB) : List Nat → Except ApiError Unit
  | [] => .ok ()
  | t :: rest =>
    match get_object_or_404_tag db t with
    | .ok _ => resolve_tags db rest
    | .error e => .error e

/-- RecipeSerializer.validate_tags: empty check, duplicate check
(len(tags) != len(set(tags))), then per-id resolution via get_object_or_404. -/
def validate_tags (db : DB) (tags : List Nat) : Except ApiError Unit :=
  if tags = [] then
    .error (.validationError "Укажите хотя бы один тег.")
  else if tags.length ≠ tags.eraseDups.length then
    .error (.validationError "Теги не должны повторяться.")
  else
    resolve_tags db tags

/-- One {id, amount} entry of the ingredients payload. -/
structure IngredientEntry where
  id : Nat
  amount : PyVal
  deriving Repr, DecidableEq

/-- The for-loop of RecipeSerializer.validate_ingredients, carrying the
ingredients_list accumulator: per entry it resolves the id via
get_object_or_404, coerces amount with int() (ValueError becomes a
ValidationError), rejects a negative amount, rejects an entry already in
ingredients_list (whole-dict comparison), then appends the entry. -/
def validate_ingredients_loop (db : DB) (ingredients_list : List IngredientEntry) :
    List IngredientEntry → Except ApiError (List IngredientEntry)
  | [] => .ok ingredients_list
  | e :: rest =>
    match get_object_or_404_ingredient db e.id with
    | .error err => .error err
    | .ok _ =>
      match pyToInt e.amount with
      | none => .error (.validationError
          "Количество ингредиента должно быть записано только в виде числа.")
      | some n =>
        if n < 0 then
          .error (.validationError "Минимальное количество игредиента - 0.")
        else if e ∈ ingredients_list then
          .error (.validationError "Ингредиенты не должны повторяться.")
        else
          validate_ingredients_loop db (ingredients_list ++ [e]) rest

/-- RecipeSerializer.validate_ingredients: empty check, then the entry loop. -/
def validate_ingredients (db : DB) (ingredients : List IngredientEntry) :
    Except ApiError (List IngredientEntry) :=
  if ingredients = [] then
    .error (.validationError "Укажите хотя бы один ингредиент.")
  else
    validate_ingredients_loop db [] ingredients

/-- RecipeSerializer.validate_cooking_time: int(cooking_time) < 1 is a
ValidationError; an unparseable value makes int() itself raise. -/
def validate_cooking_time (cooking_time : PyVal) : Except ApiError Unit :=
  match pyToInt cooking_time with
  | none => .error .pyValueError
  | some n =>
    if n < 1 then
      .error (.validationError "Минимальное время приготовления - 1 мин.")
    else
      .ok ()

/-- A recipe-mutation payload as read from initial_data. -/
structure RecipePayload where
  tags : List Nat
  ingredients : List IngredientEntry
  name : String
  text : String
  cooking_time : PyVal
  deriving Repr, DecidableEq

/-- RecipeSerializer.validate: runs the tag, ingredient and cooking-time
validators in order and stores the returned ingredients_list into data. -/
def RecipeSerializer_validate (db : DB) (p : RecipePayload) :
    Except ApiError RecipePayload :=
  match validate_tags db p.tags with
  | .error e => .error e
  | .ok _ =>
    match validate_ingredients db p.ingredients with
    | .error e => .error e
    | .ok ingredients_list =>
      match validate_cooking_time p.cooking_time with
      | .error e => .error e
      | .ok _ => .ok { p with ingredients := ingredients_list }

/-! RecipeSerializer persistence (create / update). -/

/-- The stored integer of a PositiveSmallIntegerField: the model field coerces
the assigned payload value through int() on the way to the store. -/
def storedInt (v : PyVal) : Int :=
  (pyToInt v).getD 0

/-- RecipeSerializer.get_ingredients: bulk_create of one IngredientInRecipe
row per entry, each pointing at the given recipe. -/
def get_ingredients (db : DB) (recipe : Nat) (ingredients : List IngredientEntry) : DB :=
  { db with ingredient_in_recipe := db.ingredient_in_recipe ++
      ingredients.map (fun e =>
        { recipe := recipe, ingredient := e.id, amount := storedInt e.amount }) }

/-- The Recipe row built by Recipe.objects.create inside create, with the
tag set attached by recipe.tags.set(tags). -/
def createdRecipe (author newId : Nat) (p : RecipePayload) : RecipeRow :=
  { id := newId
    author := author
    name := p.name
    text := p.text
    cooking_time := storedInt p.cooking_time
    tags := p.tags }

/-- RecipeSerializer.create: insert the Recipe row, set its tags, then
bulk-insert the ingredient rows. -/
def RecipeSerializer_create (db : DB) (author newId : Nat) (p : RecipePayload) : DB :=
  get_ingredients
    { db with recipes := db.recipes ++ [createdRecipe author newId p] }
    newId p.ingredients

/-- RecipeSerializer.update: delete every IngredientInRecipe row of the
instance, replace its tag set and scalar fields, then bulk-insert the new
ingredient rows. -/
def RecipeSerializer_update (db : DB) (instanceId : Nat) (p : RecipePayload) : DB :=
  let afterDelete : DB :=
    { db with ingredient_in_recipe :=
        db.ingredient_in_recipe.filter (fun row => row.recipe != instanceId) }
  let afterTags : DB :=
    { afterDelete with recipes := afterDelete.recipes.map (fun r =>
        if r.id = instanceId then
          { r with
            tags := p.tags
            name := p.name
            text := p.text
            cooking_time := storedInt p.cooking_time }
        else r) }
  get_ingredients afterTags instanceId p.ingredients

/-! GetRecipeSerializer read projection. -/

/-- One row of the read projection's ingredients field
(RecipeIngredientSerializer: id, name, measurement_unit, amount). -/
structure IngredientLine where
  id : Nat
  name : String
  measurement_unit : String
  amount : Int
  deriving Repr, DecidableEq

/-- GetRecipeSerializer tags field: the full Tag objects of the recipe's
tag set. -/
def GetRecipe_tags (db : DB) (r : RecipeRow) : List Tag :=
  r.tags.filterMap (fun tid => db.tags.find? (fun t => t.id == tid))

/-- GetRecipeSerializer ingredients field, sourced from the ingredient_in
reverse relation: one line per IngredientInRecipe row of this recipe. -/
def GetRecipe_ingredients (db : DB) (r : RecipeRow) : List IngredientLine :=
  (db.ingredient_in_recipe.filter (fun row => row.recipe == r.id)).filterMap
    (fun row =>
      (db.ingredients.find? (fun i => i.id == row.ingredient)).map (fun i =>
        { id := i.id
          name := i.name
          measurement_unit := i.measurement_unit
          amount := row.amount }))

/-- The requesting viewer supplied by the authentication layer. -/
inductive Viewer where
  | anonymous
  | authenticated (userId : Nat)
  deriving Repr, DecidableEq

/-- A reverse-relation manager reachable from a User instance. -/
inductive UserRelation where
  | authoredRecipes (rows : List RecipeRow)
  | cartRows (rows : List CartRow)
  | favoriteRows (rows : List FavoriteRow)
  | subscriberRows (rows : List SubscriptionRow)
  | subscribingRows (rows : List SubscriptionRow)
  deriving Repr, DecidableEq

/-- Python attribute access on a User instance for a related manager: the
models declare related_name accessors recipe_author (Recipe.author),
cart_user (Cart.user), favorite_user (Favorite.user), subscriber
(Subscription.user) and subscribing (Subscription.author); any other
attribute name raises AttributeError, modelled as none. -/
def user_getattr (db : DB) (userId : Nat) (attr : String) : Option UserRelation :=
  if attr = "recipe_author" then
    some (.authoredRecipes (db.recipes.filter (fun r => r.author == userId)))
  else if attr = "cart_user" then
    some (.cartRows (db.carts.filter (fun c => c.user == userId)))
  else if attr = "favorite_user" then
    some (.favoriteRows (db.favorites.filter (fun f => f.user == userId)))
  else if attr = "subscriber" then
    some (.subscriberRows (db.subscriptions.filter (fun s => s.user == userId)))
  else if attr = "subscribing" then
    some (.subscribingRows (db.subscriptions.filter (fun s => s.author == userId)))
  else
    none

/-- GetRecipeSerializer.get_is_favorited: false for an anonymous viewer
(short-circuit before any attribute access); otherwise it evaluates
user.favorite.filter(recipe=object).exists(). A result of none models an
uncaught AttributeError. -/
def get_is_favorited (db : DB) (viewer : Viewer) (recipeId : Nat) : Option Bool :=
  match viewer with
  | .anonymous => some false
  | .authenticated uid =>
    match user_getattr db uid "favorite" with
    | some (.favoriteRows rows) => some (rows.any (fun f => f.recipe == recipeId))
    | _ => none

/-- GetRecipeSerializer.get_is_in_shopping_cart: false for an anonymous
viewer; otherwise it evaluates user.shoppingcart.filter(recipe=object).exists(). -/
def get_is_in_shopping_cart (db : DB) (viewer : Viewer) (recipeId : Nat) : Option Bool :=
  match viewer with
  | .anonymous => some false
  | .authenticated uid =>
    match user_getattr db uid "shoppingcart" with
    | some (.cartRows rows) => some (rows.any (fun c => c.recipe == recipeId))
    | _ => none

/-! Relation-toggle validators (Favorite / Cart / Subscription, users). -/

/-- FavoriteSerializer.validate: duplicate (user, recipe) is a ValidationError. -/
def FavoriteSerializer_validate (db : DB) (user recipe : Nat) : Except ApiError Unit :=
  if db.favorites.any (fun f => f.user == user && f.recipe == recipe) then
    .error (.validationError "Этот рецепт уже добавлен")
  else
    .ok ()

/-- CartSerializer: inherits FavoriteSerializer.validate with Meta.model = Cart. -/
def CartSerializer_validate (db : DB) (user recipe : Nat) : Except ApiError Unit :=
  if db.carts.any (fun c => c.user == user && c.recipe == recipe) then
    .error (.validationError "Этот рецепт уже добавлен")
  else
    .ok ()

/-- A favorite add: validation, then insertion of the relation row. -/
def Favorite_add (db : DB) (user recipe : Nat) : Except ApiError DB :=
  match FavoriteSerializer_validate db user recipe with
  | .error e => .error e
  | .ok _ => .ok { db with favorites :=
      db.favorites ++ [{ user := user, recipe := recipe }] }

/-- A cart add: validation, then insertion of the relation row. -/
def Cart_add (db : DB) (user recipe : Nat) : Except ApiError DB :=
  match CartSerializer_validate db user recipe with
  | .error e => .error e
  | .ok _ => .ok { db with carts :=
      db.carts ++ [{ user := user, recipe := recipe }] }

/-- FollowSerializer.validate: the duplicate (author, user) check runs
first, then the self-follow check. -/
def FollowSerializer_validate (db : DB) (user author : Nat) : Except ApiError Unit :=
  if db.subscriptions.any (fun s => s.author == author && s.user == user) then
    .error (.validationError "Вы уже подписаны на этого пользователя!")
  else if user = author then
    .error (.validationError "Вы не можете подписаться на самого себя!")
  else
    .ok ()

/-! User creation (UsersCreateSerializer). -/

/-- UsersCreateSerializer.validate_username: the literal "me" and any
already-taken username are ValidationErrors. -/
def validate_username (db : DB) (value : String) : Except ApiError String :=
  if value = "me" then
    .error (.validationError "Невозможно создать пользователя с таким именем!")
  else if db.users.any (fun u => u.username == value) then
    .error (.validationError "Пользователь с таким именем уже существует")
  else
    .ok value

/-- User creation: field validation runs before User.objects.create_user,
so on a validation failure no user row is inserted. -/
def UsersCreateSerializer_create (db : DB) (newId : Nat) (username email : String) :
    Except ApiError DB :=
  match validate_username db username with
  | .error e => .error e
  | .ok v => .ok { db with users :=
      db.users ++ [{ id := newId, username := v, email := email }] }

/-! Concrete fixtures used by witnesses and counterexamples. -/

/-- A seeded tag. -/
def exTag : Tag :=
  { id := 1, name := "breakfast", color := "E26C2D", slug := "breakfast" }

/-- A seeded ingredient. -/
def exIngredient : Ingredient :=
  { id := 5, name := "salt", measurement_unit := "g" }

/-- A registered user. -/
def exUser : UserRow :=
  { id := 1, username := "alice", email := "alice@example.com" }

/-- A store holding one tag, one ingredient and one user. -/
def exDB : DB :=
  { tags := [exTag]
    ingredients := [exIngredient]
    users := [exUser]
    recipes := []
    ingredient_in_recipe := []
    favorites := []
    carts := []
    subscriptions := [] }

/-- A recipe row as it stood before an update. -/
def exOldRecipe : RecipeRow :=
  { id := 1
    author := 1
    name := "old soup"
    text := "boil water"
    cooking_time := 10
    tags := [1] }

/-- A store holding exOldRecipe with one ingredient line, plus one
ingredient line of an unrelated recipe 2. -/
def exDB6 : DB :=
  { exDB with
    recipes := [exOldRecipe]
    ingredient_in_recipe :=
      [{ recipe := 1, ingredient := 5, amount := 7 },
       { recipe := 2, ingredient := 6, amount := 1 }] }

/-- The update payload submitted against exOldRecipe. -/
def p6 : RecipePayload :=
  { tags := [2]
    ingredients := [{ id := 5, amount := PyVal.pyInt 3 }]
    name := "new soup"
    text := "boil better water"
    cooking_time := PyVal.pyInt 20 }

/-- A creation payload that validates against exDB. -/
def p7 : RecipePayload :=
  { tags := [1]
    ingredients := [{ id := 5, amount := PyVal.pyInt 3 }]
    name := "soup"
    text := "boil"
    cooking_time := PyVal.pyInt 10 }

/-! Theorems. -/

/-- C1 counterexample: submitting the tag id 2, which resolves to no Tag in
the store, makes validate_tags fail with Http404 — a generic not-found — and
not with a ValidationError, contradicting the claim that an unresolvable tag
identifier surfaces as a validation failure. -/
theorem C1_counterexample :
    isValidationFailure (validate_tags exDB [2]) = false ∧
    validate_tags exDB [2] = Except.error ApiError.http404 :=
  ⟨rfl, rfl⟩

/-- If some tag id in the list resolves to no Tag row, the resolution loop
of validate_tags ends in Http404. -/
lemma resolve_tags_404 (db : DB) :
    ∀ tags : List Nat, (∃ t ∈ tags, tagResolves db t = false) →
      resolve_tags db tags = .error .http404 := by
  intro tags
  induction tags with
  | nil =>
    rintro ⟨t, ht, _⟩
    cases ht
  | cons a rest ih =>
    rintro ⟨t, ht, hres⟩
    cases hfind : db.tags.find? (fun x => x.id == a) with
    | none => simp [resolve_tags, get_object_or_404_tag, hfind]
    | some tg =>
      have hmem : t ∈ rest := by
        rcases List.mem_cons.mp ht with rfl | hmem
        · simp only [tagResolves, hfind] at hres
          simp at hres
        · exact hmem
      simpa [resolve_tags, get_object_or_404_tag, hfind] using ih ⟨t, hmem, hres⟩

/-- If every entry has a parseable nonnegative amount, the entries are
pairwise distinct and disjoint from the accumulator, and some entry's
ingredient id resolves to no Ingredient row, the validation loop ends in
Http404. -/
lemma validate_ingredients_loop_404 (db : DB) :
    ∀ (l seen : List IngredientEntry),
      (∀ e ∈ l, ∃ n, pyToInt e.amount = some n ∧ 0 ≤ n) →
      (∀ e ∈ l, e ∉ seen) →
      l.Nodup →
      (∃ e ∈ l, ingredientResolves db e.id = false) →
      validate_ingredients_loop db seen l = .error .http404 := by
  intro l
  induction l with
  | nil =>
    rintro seen _ _ _ ⟨e, he, _⟩
    cases he
  | cons a rest ih =>
    rintro seen hamt hseen hnodup ⟨e, he, hres⟩
    cases hfind : db.ingredients.find? (fun i => i.id == a.id) with
    | none => simp [validate_ingredients_loop, get_object_or_404_ingredient, hfind]
    | some ing =>
      have hemem : e ∈ rest := by
        rcases List.mem_cons.mp he with rfl | hm
        · simp only [ingredientResolves, hfind] at hres
          simp at hres
        · exact hm
      obtain ⟨n, hn, hn0⟩ := hamt a (List.mem_cons_self a rest)
      have hanot : a ∉ seen := hseen a (List.mem_cons_self a rest)
      have step : validate_ingredients_loop db seen (a :: rest)
          = validate_ingredients_loop db (seen ++ [a]) rest := by
        simp [validate_ingredients_loop, get_object_or_404_ingredient, hfind,
          hn, not_lt.mpr hn0, hanot]
      rw [step]
      refine ih (seen ++ [a]) (fun x hx => hamt x (List.mem_cons_of_mem a hx))
        ?_ (List.nodup_cons.mp hnodup).2 ⟨e, hemem, hres⟩
      intro x hx
      simp only [List.mem_append, List.mem_singleton]
      rintro (hxs | rfl)
      · exact hseen x (List.mem_cons_of_mem a hx) hxs
      · exact (List.nodup_cons.mp hnodup).1 hx

/-- C1 (amended): in a recipe-mutation payload, a tag identifier that does
not resolve to an existing Tag makes validate_tags fail with Http404 — the
not-found raised by get_object_or_404, surfaced as a 404 — rather than with
a ValidationError, provided the earlier empty and duplicate checks pass;
likewise an ingredient identifier that does not resolve to an existing
Ingredient makes validate_ingredients fail with Http404, provided the
entries are nonempty, pairwise distinct and carry parseable nonnegative
amounts. -/
theorem C1_unresolved_id_is_http404 (db : DB) (tags : List Nat)
    (l : List IngredientEntry)
    (htne : tags ≠ []) (htnd : tags.length = tags.eraseDups.length)
    (htwit : ∃ t ∈ tags, tagResolves db t = false)
    (hine : l ≠ [])
    (hiamt : ∀ e ∈ l, ∃ n, pyToInt e.amount = some n ∧ 0 ≤ n)
    (hinodup : l.Nodup)
    (hiwit : ∃ e ∈ l, ingredientResolves db e.id = false) :
    validate_tags db tags = Except.error ApiError.http404 ∧
    validate_ingredients db l = Except.error ApiError.http404 := by
  constructor
  · simp only [validate_tags]
    rw [if_neg htne, if_neg (fun hc => hc htnd)]
    exact resolve_tags_404 db tags htwit
  · simp only [validate_ingredients]
    rw [if_neg hine]
    exact validate_ingredients_loop_404 db l []
      hiamt (fun e _ hc => (List.not_mem_nil e) hc) hinodup hiwit

/-- C1 witness: the store exDB holds only tag 1 and ingredient 5, so the
tag id 2 and the ingredient id 7 resolve to nothing and both validators
end in Http404. -/
theorem C1_unresolved_id_is_http404_witness :
    validate_tags exDB [2] = Except.error ApiError.http404 ∧
    validate_ingredients exDB [{ id := 7, amount := PyVal.pyInt 2 }]
      = Except.error ApiError.http404 :=
  C1_unresolved_id_is_http404 exDB [2] [{ id := 7, amount := PyVal.pyInt 2 }]
    (by decide) rfl ⟨2, by decide, rfl⟩ (by decide)
    (by
      intro e he
      rw [List.mem_singleton] at he
      subst he
      exact ⟨2, rfl, by decide⟩)
    (by decide)
    ⟨{ id := 7, amount := PyVal.pyInt 2 }, by decide, rfl⟩

/-- C4: the duplicate check of validate_ingredients compares whole
(id, amount) entries: a payload repeating the exact same entry is rejected
with the duplicate ValidationError, while a payload carrying the same
ingredient id twice with two different amounts passes the validator. -/
theorem C4_duplicate_check_on_whole_entry (db : DB) (e1 e2 : IngredientEntry)
    (n1 n2 : Int)
    (h1 : ingredientResolves db e1.id = true)
    (h2 : ingredientResolves db e2.id = true)
    (ha1 : pyToInt e1.amount = some n1) (hn1 : 0 ≤ n1)
    (ha2 : pyToInt e2.amount = some n2) (hn2 : 0 ≤ n2)
    (_hid : e1.id = e2.id) (hamt : e1.amount ≠ e2.amount) :
    validate_ingredients db [e1, e1]
      = Except.error (ApiError.validationError "Ингредиенты не должны повторяться.") ∧
    validate_ingredients db [e1, e2] = Except.ok [e1, e2] := by
  simp only [ingredientResolves] at h1 h2
  rw [Option.isSome_iff_exists] at h1 h2
  obtain ⟨i1, hf1⟩ := h1
  obtain ⟨i2, hf2⟩ := h2
  have hne12 : ¬ e2 = e1 := fun hc => hamt (congrArg IngredientEntry.amount hc).symm
  constructor
  · simp [validate_ingredients, validate_ingredients_loop,
      get_object_or_404_ingredient, hf1, ha1, not_lt.mpr hn1]
  · simp [validate_ingredients, validate_ingredients_loop,
      get_object_or_404_ingredient, hf1, hf2, ha1, ha2,
      not_lt.mpr hn1, not_lt.mpr hn2, hne12]

/-- C4 witness: repeating the entry (5, 2) is rejected, while (5, 2)
followed by (5, 3) — same ingredient id, different amounts — passes. -/
theorem C4_duplicate_check_on_whole_entry_witness :
    validate_ingredients exDB
        [{ id := 5, amount := PyVal.pyInt 2 }, { id := 5, amount := PyVal.pyInt 2 }]
      = Except.error (ApiError.validationError "Ингредиенты не должны повторяться.") ∧
    validate_ingredients exDB
        [{ id := 5, amount := PyVal.pyInt 2 }, { id := 5, amount := PyVal.pyInt 3 }]
      = Except.ok
          [{ id := 5, amount := PyVal.pyInt 2 }, { id := 5, amount := PyVal.pyInt 3 }] :=
  C4_duplicate_check_on_whole_entry exDB
    { id := 5, amount := PyVal.pyInt 2 } { id := 5, amount := PyVal.pyInt 3 }
    2 3 rfl rfl rfl (by decide) rfl (by decide) rfl (by decide)

/-- C5: for an ingredient entry whose id resolves, an amount that int()
cannot parse yields the parse ValidationError, and a parsed amount below
zero yields the negative-amount ValidationError. -/
theorem C5_amount_unparseable_or_negative (db : DB) (e : IngredientEntry)
    (n : Int) (hres : ingredientResolves db e.id = true) :
    (pyToInt e.amount = none →
      validate_ingredients db [e]
        = Except.error (ApiError.validationError
            "Количество ингредиента должно быть записано только в виде числа.")) ∧
    (pyToInt e.amount = some n → n < 0 →
      validate_ingredients db [e]
        = Except.error (ApiError.validationError
            "Минимальное количество игредиента - 0.")) := by
  simp only [ingredientResolves] at hres
  rw [Option.isSome_iff_exists] at hres
  obtain ⟨i, hf⟩ := hres
  constructor
  · intro hnone
    simp [validate_ingredients, validate_ingredients_loop,
      get_object_or_404_ingredient, hf, hnone]
  · intro hsome hneg
    simp [validate_ingredients, validate_ingredients_loop,
      get_object_or_404_ingredient, hf, hsome, hneg]

/-- C5 witness: with the resolvable ingredient id 5, the amount "two" fails
with the parse error and the amount -3 fails with the negative-amount
error. -/
theorem C5_amount_unparseable_or_negative_witness :
    validate_ingredients exDB [{ id := 5, amount := PyVal.pyStr "two" }]
      = Except.error (ApiError.validationError
          "Количество ингредиента должно быть записано только в виде числа.") ∧
    validate_ingredients exDB [{ id := 5, amount := PyVal.pyInt (-3) }]
      = Except.error (ApiError.validationError
          "Минимальное количество игредиента - 0.") :=
  ⟨(C5_amount_unparseable_or_negative exDB
      { id := 5, amount := PyVal.pyStr "two" } 0 rfl).1 (by decide),
   (C5_amount_unparseable_or_negative exDB
      { id := 5, amount := PyVal.pyInt (-3) } (-3) rfl).2 rfl (by decide)⟩

/-- C2: for every authenticated viewer the is_favorited and
is_in_shopping_cart flags cannot be computed at all — the serializer reads
user.favorite and user.shoppingcart while the models declare the reverse
accessors favorite_user and cart_user, so the attribute access raises
AttributeError (modelled as none) on every store, every user and every
recipe; only the anonymous short-circuit yields false. -/
theorem C2_flags_crash_for_authenticated (db : DB) (uid rid : Nat) :
    get_is_favorited db (Viewer.authenticated uid) rid = none ∧
    get_is_in_shopping_cart db (Viewer.authenticated uid) rid = none ∧
    get_is_favorited db Viewer.anonymous rid = some false ∧
    get_is_in_shopping_cart db Viewer.anonymous rid = some false :=
  ⟨rfl, rfl, rfl, rfl⟩

/-- C3: the serializer validator rejects cooking_time 0 and accepts 1, 2880
and 2881; the model-level validator pair on Recipe.cooking_time accepts 1
and 2880 and rejects 0 and 2881, so the lower bound lives in the serializer
and the upper bound only at the persistence-model level. -/
theorem C3_cooking_time_bounds :
    validate_cooking_time (PyVal.pyInt 0)
      = Except.error (ApiError.validationError "Минимальное время приготовления - 1 мин.") ∧
    validate_cooking_time (PyVal.pyInt 1) = Except.ok () ∧
    validate_cooking_time (PyVal.pyInt 2880) = Except.ok () ∧
    validate_cooking_time (PyVal.pyInt 2881) = Except.ok () ∧
    recipe_cooking_time_valid 0 = false ∧
    recipe_cooking_time_valid 1 = true ∧
    recipe_cooking_time_valid 2880 = true ∧
    recipe_cooking_time_valid 2881 = false :=
  ⟨rfl, rfl, rfl, rfl, rfl, rfl, rfl, rfl⟩

/-- C8: adding a Favorite (resp. Cart) relation fails with the duplicate
ValidationError exactly when the (user, recipe) pair already exists in the
relation, and succeeds by inserting the row when it does not. -/
theorem C8_favorite_cart_duplicate_add (db : DB) (user recipe : Nat) :
    (db.favorites.any (fun f => f.user == user && f.recipe == recipe) = true →
      Favorite_add db user recipe
        = Except.error (ApiError.validationError "Этот рецепт уже добавлен")) ∧
    (db.favorites.any (fun f => f.user == user && f.recipe == recipe) = false →
      Favorite_add db user recipe
        = Except.ok { db with favorites :=
            db.favorites ++ [{ user := user, recipe := recipe }] }) ∧
    (db.carts.any (fun c => c.user == user && c.recipe == recipe) = true →
      Cart_add db user recipe
        = Except.error (ApiError.validationError "Этот рецепт уже добавлен")) ∧
    (db.carts.any (fun c => c.user == user && c.recipe == recipe) = false →
      Cart_add db user recipe
        = Except.ok { db with carts :=
            db.carts ++ [{ user := user, recipe := recipe }] }) := by
  refine ⟨fun h => ?_, fun h => ?_, fun h => ?_, fun h => ?_⟩ <;>
  · simp only [Favorite_add, Cart_add, FavoriteSerializer_validate,
      CartSerializer_validate]
    rw [h]
    simp

/-- C8 witness: with an empty store the add of (1, 1) succeeds, and in the
resulting store the identical re-add fails with the duplicate error, for
both the Favorite and the Cart relation. -/
theorem C8_favorite_cart_duplicate_add_witness :
    Favorite_add exDB 1 1
      = Except.ok { exDB with favorites := [{ user := 1, recipe := 1 }] } ∧
    Favorite_add { exDB with favorites := [{ user := 1, recipe := 1 }] } 1 1
      = Except.error (ApiError.validationError "Этот рецепт уже добавлен") ∧
    Cart_add exDB 1 1
      = Except.ok { exDB with carts := [{ user := 1, recipe := 1 }] } ∧
    Cart_add { exDB with carts := [{ user := 1, recipe := 1 }] } 1 1
      = Except.error (ApiError.validationError "Этот рецепт уже добавлен") :=
  ⟨(C8_favorite_cart_duplicate_add exDB 1 1).2.1 rfl,
   (C8_favorite_cart_duplicate_add
      { exDB with favorites := [{ user := 1, recipe := 1 }] } 1 1).1 rfl,
   (C8_favorite_cart_duplicate_add exDB 1 1).2.2.2 rfl,
   (C8_favorite_cart_duplicate_add
      { exDB with carts := [{ user := 1, recipe := 1 }] } 1 1).2.2.1 rfl⟩

/-- C9: a subscription add by a user to that same user fails with the
self-follow ValidationError whenever the pair is not already subscribed,
and any add for an already-existing (follower, author) pair fails with the
duplicate ValidationError. -/
theorem C9_follow_self_and_duplicate (db : DB) (user author : Nat) :
    (db.subscriptions.any (fun s => s.author == author && s.user == user) = false →
      user = author →
      FollowSerializer_validate db user author
        = Except.error (ApiError.validationError "Вы не можете подписаться на самого себя!")) ∧
    (db.subscriptions.any (fun s => s.author == author && s.user == user) = true →
      FollowSerializer_validate db user author
        = Except.error (ApiError.validationError "Вы уже подписаны на этого пользователя!")) := by
  constructor
  · intro h hself
    subst hself
    simp only [FollowSerializer_validate]
    rw [h]
    simp
  · intro h
    simp only [FollowSerializer_validate]
    rw [h]
    simp

/-- C9 witness: in the empty store, user 1 following user 1 fails with the
self-follow error; once the (1, 2) subscription exists, re-adding it fails
with the duplicate error. -/
theorem C9_follow_self_and_duplicate_witness :
    FollowSerializer_validate exDB 1 1
      = Except.error (ApiError.validationError "Вы не можете подписаться на самого себя!") ∧
    FollowSerializer_validate
      { exDB with subscriptions := [{ user := 1, author := 2 }] } 1 2
      = Except.error (ApiError.validationError "Вы уже подписаны на этого пользователя!") :=
  ⟨(C9_follow_self_and_duplicate exDB 1 1).1 rfl rfl,
   (C9_follow_self_and_duplicate
      { exDB with subscriptions := [{ user := 1, author := 2 }] } 1 2).2 rfl⟩

/-- C10: user creation with the literal username "me" fails with a
ValidationError, as does creation with a username some existing user
already holds; in either case the result is an error, so no user row is
inserted. -/
theorem C10_username_me_or_taken (db : DB) (v email : String) (newId : Nat) :
    (v = "me" →
      UsersCreateSerializer_create db newId v email
        = Except.error (ApiError.validationError "Невозможно создать пользователя с таким именем!")) ∧
    (v ≠ "me" →
      db.users.any (fun u => u.username == v) = true →
      UsersCreateSerializer_create db newId v email
        = Except.error (ApiError.validationError "Пользователь с таким именем уже существует")) := by
  constructor
  · intro h
    subst h
    simp [UsersCreateSerializer_create, validate_username]
  · intro h htaken
    simp only [UsersCreateSerializer_create, validate_username]
    rw [htaken]
    simp [h]

/-- C10 witness: creating the username "me" fails with the reserved-name
error, and creating "alice", which exDB already holds, fails with the
already-exists error. -/
theorem C10_username_me_or_taken_witness :
    UsersCreateSerializer_create exDB 2 "me" "me@example.com"
      = Except.error (ApiError.validationError "Невозможно создать пользователя с таким именем!") ∧
    UsersCreateSerializer_create exDB 2 "alice" "dup@example.com"
      = Except.error (ApiError.validationError "Пользователь с таким именем уже существует") :=
  ⟨(C10_username_me_or_taken exDB "me" "me@example.com" 2).1 rfl,
   (C10_username_me_or_taken exDB "alice" "dup@example.com" 2).2 (by decide) rfl⟩

/-- Rows of other recipes never satisfy the this-recipe filter after the
delete step of update. -/
lemma filter_beq_of_filter_bne (l : List IIRRow) (rid : Nat) :
    (l.filter (fun row => row.recipe != rid)).filter (fun row => row.recipe == rid)
      = [] := by
  induction l with
  | nil => rfl
  | cons a t ih => by_cases h : a.recipe = rid <;> simp [List.filter_cons, h, ih]

/-- The delete-step filter of update is idempotent. -/
lemma filter_bne_of_filter_bne (l : List IIRRow) (rid : Nat) :
    (l.filter (fun row => row.recipe != rid)).filter (fun row => row.recipe != rid)
      = l.filter (fun row => row.recipe != rid) := by
  induction l with
  | nil => rfl
  | cons a t ih => by_cases h : a.recipe = rid <;> simp [List.filter_cons, h, ih]

/-- Every bulk-created row carries the target recipe id, so the
this-recipe filter keeps them all. -/
lemma filter_beq_map_rows (rid : Nat) (l : List IngredientEntry) :
    ((l.map (fun e =>
        ({ recipe := rid, ingredient := e.id, amount := storedInt e.amount } : IIRRow))).filter
      (fun row => row.recipe == rid))
    = l.map (fun e =>
        { recipe := rid, ingredient := e.id, amount := storedInt e.amount }) := by
  induction l with
  | nil => rfl
  | cons a t ih => simp [List.filter_cons, ih]

/-- No bulk-created row survives the other-recipes filter. -/
lemma filter_bne_map_rows (rid : Nat) (l : List IngredientEntry) :
    ((l.map (fun e =>
        ({ recipe := rid, ingredient := e.id, amount := storedInt e.amount } : IIRRow))).filter
      (fun row => row.recipe != rid))
    = [] := by
  induction l with
  | nil => rfl
  | cons a t ih => simp [List.filter_cons, ih]

/-- C6: after updating a recipe, its persisted ingredient-line rows are
exactly the bulk-created rows of the submitted entries — none of the
previously persisted rows of this recipe survive — the rows of every other
recipe are untouched, and the updated recipe row carries exactly the
submitted tag set. -/
theorem C6_update_full_replace (db : DB) (rid : Nat) (p : RecipePayload) :
    ((RecipeSerializer_update db rid p).ingredient_in_recipe.filter
        (fun row => row.recipe == rid))
      = p.ingredients.map (fun e =>
          { recipe := rid, ingredient := e.id, amount := storedInt e.amount }) ∧
    ((RecipeSerializer_update db rid p).ingredient_in_recipe.filter
        (fun row => row.recipe != rid))
      = db.ingredient_in_recipe.filter (fun row => row.recipe != rid) ∧
    (∀ r ∈ (RecipeSerializer_update db rid p).recipes, r.id = rid →
      r.tags = p.tags) := by
  refine ⟨?_, ?_, ?_⟩
  · simp only [RecipeSerializer_update, get_ingredients, List.filter_append]
    rw [filter_beq_of_filter_bne, filter_beq_map_rows]
    rfl
  · simp only [RecipeSerializer_update, get_ingredients, List.filter_append]
    rw [filter_bne_of_filter_bne, filter_bne_map_rows, List.append_nil]
  · intro r hr hrid
    simp only [RecipeSerializer_update, get_ingredients, List.mem_map] at hr
    obtain ⟨r0, _, rfl⟩ := hr
    by_cases h : r0.id = rid
    · simp [h]
    · rw [if_neg h] at hrid ⊢
      exact absurd hrid h

/-- C6 witness: updating recipe 1 of exDB6 with p6 leaves exactly the
submitted line (5, 3) on recipe 1, keeps the unrelated line of recipe 2,
and replaces the tag set of the stored recipe row by [2]. -/
theorem C6_update_full_replace_witness :
    ((RecipeSerializer_update exDB6 1 p6).ingredient_in_recipe.filter
        (fun row => row.recipe == 1))
      = [{ recipe := 1, ingredient := 5, amount := 3 }] ∧
    ((RecipeSerializer_update exDB6 1 p6).ingredient_in_recipe.filter
        (fun row => row.recipe != 1))
      = [{ recipe := 2, ingredient := 6, amount := 1 }] ∧
    ({ exOldRecipe with
        tags := [2]
        name := "new soup"
        text := "boil better water"
        cooking_time := 20 } : RecipeRow).tags = p6.tags := by
  have h := C6_update_full_replace exDB6 1 p6
  refine ⟨h.1.trans (by decide), h.2.1.trans (by decide), ?_⟩
  exact h.2.2 _ (by decide) rfl

/-- A tag-resolution loop that succeeds visited only resolvable ids. -/
lemma resolve_tags_ok (db : DB) :
    ∀ ts : List Nat, resolve_tags db ts = .ok () →
      ∀ t ∈ ts, tagResolves db t = true := by
  intro ts
  induction ts with
  | nil =>
    intro _ t ht
    cases ht
  | cons a rest ih =>
    intro hok t ht
    cases hfind : db.tags.find? (fun x => x.id == a) with
    | none => simp [resolve_tags, get_object_or_404_tag, hfind] at hok
    | some tg =>
      have hrest : resolve_tags db rest = .ok () := by
        simpa [resolve_tags, get_object_or_404_tag, hfind] using hok
      rcases List.mem_cons.mp ht with rfl | hm
      · simp [tagResolves, hfind]
      · exact ih hrest t hm

/-- A successful validate_tags resolves every submitted tag id. -/
lemma validate_tags_ok (db : DB) (ts : List Nat)
    (h : validate_tags db ts = .ok ()) :
    ∀ t ∈ ts, tagResolves db t = true := by
  apply resolve_tags_ok db ts
  by_cases h1 : ts = []
  · simp [validate_tags, h1] at h
  · by_cases h2 : ts.length ≠ ts.eraseDups.length
    · simp [validate_tags, h1, h2] at h
    · simpa [validate_tags, h1, h2] using h

/-- A successful validation loop returns the accumulator extended by the
input order-preservingly, with every entry resolvable and every amount a
parseable nonnegative integer. -/
lemma validate_ingredients_loop_ok (db : DB) :
    ∀ (l seen out : List IngredientEntry),
      validate_ingredients_loop db seen l = .ok out →
      out = seen ++ l ∧
      ∀ e ∈ l, ingredientResolves db e.id = true ∧
        ∃ n, pyToInt e.amount = some n ∧ 0 ≤ n := by
  intro l
  induction l with
  | nil =>
    intro seen out h
    simp only [validate_ingredients_loop, Except.ok.injEq] at h
    exact ⟨by simp [h], fun e he => absurd he (List.not_mem_nil e)⟩
  | cons a rest ih =>
    intro seen out h
    cases hfind : db.ingredients.find? (fun i => i.id == a.id) with
    | none =>
      simp [validate_ingredients_loop, get_object_or_404_ingredient, hfind] at h
    | some ing =>
      cases hamt : pyToInt a.amount with
      | none =>
        simp [validate_ingredients_loop, get_object_or_404_ingredient,
          hfind, hamt] at h
      | some n =>
        by_cases hneg : n < 0
        · simp [validate_ingredients_loop, get_object_or_404_ingredient,
            hfind, hamt, hneg] at h
        · by_cases hdup : a ∈ seen
          · simp [validate_ingredients_loop, get_object_or_404_ingredient,
              hfind, hamt, hneg, hdup] at h
          · have hrec : validate_ingredients_loop db (seen ++ [a]) rest = .ok out := by
              simpa [validate_ingredients_loop, get_object_or_404_ingredient,
                hfind, hamt, hneg, hdup] using h
            obtain ⟨hout, hall⟩ := ih (seen ++ [a]) out hrec
            refine ⟨by simpa using hout, ?_⟩
            intro e he
            rcases List.mem_cons.mp he with rfl | hm
            · exact ⟨by simp [ingredientResolves, hfind], n, hamt, not_lt.mp hneg⟩
            · exact hall e hm

/-- A successful validate_ingredients returns the submitted entries
unchanged, each resolvable with a parseable nonnegative amount. -/
lemma validate_ingredients_ok (db : DB) (l out : List IngredientEntry)
    (h : validate_ingredients db l = .ok out) :
    out = l ∧ ∀ e ∈ l, ingredientResolves db e.id = true ∧
      ∃ n, pyToInt e.amount = some n ∧ 0 ≤ n := by
  by_cases h0 : l = []
  · simp [validate_ingredients, h0] at h
  · have hst := validate_ingredients_loop_ok db l [] out
      (by simpa [validate_ingredients, h0] using h)
    exact ⟨by simpa using hst.1, hst.2⟩

/-- A successful RecipeSerializer.validate returns the payload unchanged;
all its tag and ingredient ids resolve, all amounts parse nonnegative and
the cooking time parses to at least 1. -/
lemma RecipeSerializer_validate_ok (db : DB) (p q : RecipePayload)
    (h : RecipeSerializer_validate db p = .ok q) :
    q = p ∧ (∀ t ∈ p.tags, tagResolves db t = true) ∧
    (∀ e ∈ p.ingredients, ingredientResolves db e.id = true ∧
      ∃ n, pyToInt e.amount = some n ∧ 0 ≤ n) ∧
    ∃ m, pyToInt p.cooking_time = some m ∧ 1 ≤ m := by
  cases ht : validate_tags db p.tags with
  | error e => simp [RecipeSerializer_validate, ht] at h
  | ok u =>
    cases u
    cases hi : validate_ingredients db p.ingredients with
    | error e => simp [RecipeSerializer_validate, ht, hi] at h
    | ok il =>
      cases hc : validate_cooking_time p.cooking_time with
      | error e => simp [RecipeSerializer_validate, ht, hi, hc] at h
      | ok u2 =>
        cases u2
        have hq : q = { p with ingredients := il } := by
          have := h
          simp only [RecipeSerializer_validate, ht, hi, hc,
            Except.ok.injEq] at this
          exact this.symm
        obtain ⟨hil, hall⟩ := validate_ingredients_ok db p.ingredients il hi
        subst hil
        have hcook : ∃ m, pyToInt p.cooking_time = some m ∧ 1 ≤ m := by
          cases hparse : pyToInt p.cooking_time with
          | none => simp [validate_cooking_time, hparse] at hc
          | some m =>
            by_cases hm : m < 1
            · simp [validate_cooking_time, hparse, hm] at hc
            · exact ⟨m, rfl, not_lt.mp hm⟩
        exact ⟨by simp [hq], validate_tags_ok db p.tags ht, hall, hcook⟩

/-- Projecting the tag objects of a list of resolvable tag ids and taking
their ids reproduces the id list. -/
lemma filterMap_tags_ids (db : DB) :
    ∀ ts : List Nat, (∀ t ∈ ts, tagResolves db t = true) →
      ((ts.filterMap (fun tid => db.tags.find? (fun t => t.id == tid))).map Tag.id)
        = ts := by
  intro ts
  induction ts with
  | nil => intro _; rfl
  | cons a rest ih =>
    intro h
    have h1 := h a (List.mem_cons_self a rest)
    simp only [tagResolves] at h1
    rw [Option.isSome_iff_exists] at h1
    obtain ⟨tg, hf⟩ := h1
    have hid : tg.id = a := by simpa using List.find?_some hf
    simp [List.filterMap_cons, hf, hid,
      ih (fun t htm => h t (List.mem_cons_of_mem a htm))]

/-- Projecting the bulk-created rows of resolvable entries through the
ingredient-line serializer and keeping (id, amount) reproduces the
submitted (id, stored amount) pairs. -/
lemma filterMap_lines_pairs (db : DB) (rid : Nat) :
    ∀ l : List IngredientEntry,
      (∀ e ∈ l, ingredientResolves db e.id = true) →
      (((l.map (fun e =>
          ({ recipe := rid, ingredient := e.id, amount := storedInt e.amount } : IIRRow))).filterMap
        (fun row => (db.ingredients.find? (fun i => i.id == row.ingredient)).map
          (fun i => ({ id := i.id
                       name := i.name
                       measurement_unit := i.measurement_unit
                       amount := row.amount } : IngredientLine)))).map
        (fun li => (li.id, li.amount)))
      = l.map (fun e => (e.id, storedInt e.amount)) := by
  intro l
  induction l with
  | nil => intro _; rfl
  | cons a rest ih =>
    intro h
    have h1 := h a (List.mem_cons_self a rest)
    simp only [ingredientResolves] at h1
    rw [Option.isSome_iff_exists] at h1
    obtain ⟨ing, hf⟩ := h1
    have hid : ing.id = a.id := by simpa using List.find?_some hf
    have ih2 := ih (fun e he => h e (List.mem_cons_of_mem a he))
    simp only [List.filterMap_map] at ih2 ⊢
    simp [List.filterMap_cons, Function.comp, hf, hid, ih2]

/-- C7: creating a recipe from a validated payload and projecting it
through the read representation reproduces the submitted tag id list, the
submitted (ingredient id, amount) pairs — with each stored amount the
integer the validator parsed from the payload — and the submitted cooking
time, provided the new recipe id is fresh in the ingredient-line store. -/
theorem C7_create_round_trip (db : DB) (p q : RecipePayload)
    (author newId : Nat)
    (hval : RecipeSerializer_validate db p = .ok q)
    (hfresh : ∀ row ∈ db.ingredient_in_recipe, ¬ row.recipe = newId) :
    ((GetRecipe_tags (RecipeSerializer_create db author newId q)
        (createdRecipe author newId q)).map Tag.id) = p.tags ∧
    ((GetRecipe_ingredients (RecipeSerializer_create db author newId q)
        (createdRecipe author newId q)).map (fun li => (li.id, li.amount)))
      = p.ingredients.map (fun e => (e.id, storedInt e.amount)) ∧
    (∀ e ∈ p.ingredients, pyToInt e.amount = some (storedInt e.amount)) ∧
    pyToInt p.cooking_time
      = some ((createdRecipe author newId q).cooking_time) := by
  obtain ⟨hq, htags, hing, m, hm, _⟩ := RecipeSerializer_validate_ok db p q hval
  subst hq
  refine ⟨?_, ?_, ?_, ?_⟩
  · exact filterMap_tags_ids db q.tags htags
  · have hbase : (db.ingredient_in_recipe.filter
        (fun row => row.recipe == newId)) = [] := by
      rw [List.filter_eq_nil_iff]
      intro row hrow
      simpa using hfresh row hrow
    have hlines := filterMap_lines_pairs db newId q.ingredients
      (fun e he => (hing e he).1)
    simp only [List.filterMap_map] at hlines
    simp only [GetRecipe_ingredients, RecipeSerializer_create, get_ingredients,
      createdRecipe, List.filter_append, hbase, filter_beq_map_rows,
      List.nil_append, List.filterMap_map]
    exact hlines
  · intro e he
    obtain ⟨_, n, hn, _⟩ := hing e he
    rw [storedInt, hn]
    rfl
  · rw [createdRecipe, storedInt, hm]
    rfl

/-- C7 witness: creating recipe 1 of exDB from p7 and projecting it back
yields tag list [1], ingredient pair list [(5, 3)] and cooking time 10. -/
theorem C7_create_round_trip_witness :
    ((GetRecipe_tags (RecipeSerializer_create exDB 1 1 p7)
        (createdRecipe 1 1 p7)).map Tag.id) = p7.tags ∧
    ((GetRecipe_ingredients (RecipeSerializer_create exDB 1 1 p7)
        (createdRecipe 1 1 p7)).map (fun li => (li.id, li.amount)))
      = p7.ingredients.map (fun e => (e.id, storedInt e.amount)) ∧
    (∀ e ∈ p7.ingredients, pyToInt e.amount = some (storedInt e.amount)) ∧
    pyToInt p7.cooking_time = some ((createdRecipe 1 1 p7).cooking_time) :=
  C7_create_round_trip exDB p7 p7 1 1 rfl
    (fun row hrow => absurd hrow (List.not_mem_nil row))

end Foodgram
